import Mathlib

/-!
Verification of the sandboxed code-runner route (src/app/api/run/route.ts).

The route accepts a JSON body with fields language, code and optional stdin,
validates it, writes the source into a fresh temporary workspace directory,
spawns a docker process over a fixed argument list, feeds stdin, accumulates
the stdout and stderr chunks, enforces a wall-clock deadline with a SIGKILL
timer, and reports exitCode, stdout, stderr and a timedOut flag.

The shallow embedding below mirrors that file. Pure pieces (dockerArgs, the
filename table, the validation predicates, the timedOut derivation) are
translated directly. The effectful pieces are modelled by explicit data:
an environment RunEnv records which fallible steps succeed and what the
spawned process does, and the handler returns a RunTrace recording the HTTP
response together with the observable side effects (workspace creation and
removal, the spawn argument list, the file write, the stdin stream events).
-/

/-- The Language union type of route.ts: "python" | "node" | "c" | "cpp" | "java".
Named Lang here because Mathlib already declares Language. -/
inductive Lang where
  | python
  | node
  | c
  | cpp
  | java
deriving DecidableEq

/-- The recognized language identifiers, from the validation check
["python", "node", "c", "cpp", "java"].includes(language) in route.ts. -/
def supportedLanguages : List String := ["python", "node", "c", "cpp", "java"]

/-- Maps a language identifier string to the Lang enum, none when the
identifier is not one of the five recognized names. -/
def Lang.ofString? (s : String) : Option Lang :=
  if s = "python" then some .python
  else if s = "node" then some .node
  else if s = "c" then some .c
  else if s = "cpp" then some .cpp
  else if s = "java" then some .java
  else none

/-- LIMIT_SECONDS = 6 in route.ts: wall-clock timeout per run, in seconds. -/
def LIMIT_SECONDS : Nat := 6

/-- LIMIT_MEMORY = "256m" in route.ts: Docker memory limit. -/
def LIMIT_MEMORY : String := "256m"

/-- LIMIT_CPUS = "0.5" in route.ts: Docker CPU limit. -/
def LIMIT_CPUS : String := "0.5"

/-- The source size bound 300_000 from the validation check
code.length > 300_000 in route.ts. -/
def SIZE_LIMIT : Nat := 300000

/-- The common argument list shared by every language in dockerArgs
(route.ts lines 23-38), including the mount spec dir + ":/workspace:ro". -/
def commonArgs (dir : String) : List String :=
  ["run", "--rm",
   "--network", "none",
   "--cpus", LIMIT_CPUS,
   "--memory", LIMIT_MEMORY,
   "--pids-limit", "64",
   "--read-only",
   "--tmpfs", "/tmp:rw,nosuid,nodev,noexec,size=64m",
   "--cap-drop", "ALL",
   "--security-opt", "no-new-privileges",
   "-v", dir ++ ":/workspace:ro",
   "-w", "/workspace",
   "--user", "1000:1000"]

/-- dockerArgs from route.ts lines 22-76: the full docker argument list for
one run, dispatching on the language. Template literals are translated to
string concatenation. -/
def dockerArgs (language : Lang) (dir : String) (fileBase : String) : List String :=
  match language with
  | .python => commonArgs dir ++ ["python:3.11-alpine", "python", fileBase ++ ".py"]
  | .node => commonArgs dir ++ ["node:20-alpine", "node", fileBase ++ ".js"]
  | .c =>
      commonArgs dir ++
        ["gcc:13", "/bin/sh", "-lc",
         "cp /workspace/" ++ fileBase ++ ".c /tmp && gcc -O2 -pipe /tmp/" ++
           fileBase ++ ".c -o /tmp/main && /tmp/main"]
  | .cpp =>
      commonArgs dir ++
        ["gcc:13", "/bin/sh", "-lc",
         "cp /workspace/" ++ fileBase ++ ".cpp /tmp && g++ -O2 -pipe /tmp/" ++
           fileBase ++ ".cpp -o /tmp/main && /tmp/main"]
  | .java =>
      commonArgs dir ++
        ["openjdk:21-jdk-slim", "/bin/sh", "-lc",
         "cp /workspace/Main.java /tmp && javac -d /tmp /tmp/Main.java && cd /tmp && java Main"]

/-- The fileBase chosen by the POST handler (route.ts lines 98-110):
"main" for every language except java, where it is "Main". -/
def fileBaseFor (language : Lang) : String :=
  match language with
  | .java => "Main"
  | _ => "main"

/-- The filename chosen by the POST handler switch (route.ts lines 101-110). -/
def filenameFor (language : Lang) : String :=
  match language with
  | .python => "main.py"
  | .node => "main.js"
  | .c => "main.c"
  | .cpp => "main.cpp"
  | .java => "Main.java"

/-- The parsed request body RunBody of route.ts. Fields are Option because
the JSON body may omit them; the JS falsy check on an empty string is
modelled explicitly in the handler. -/
structure RunBody where
  language : Option String
  code : Option String
  stdin : Option String
deriving DecidableEq

/-- How the supervised run ends: either the docker process exits on its own
with some exit code before the deadline, or the deadline timer fires first
and SIGKILLs the process. -/
inductive RunFate where
  | exits (code : Int)
  | deadline
deriving DecidableEq

/-- The value delivered by the close event of the child process: the exit
code when the process exited on its own, null (none) when it was killed by
a signal, which is what the SIGKILL deadline timer produces. -/
def closeCode (fate : RunFate) : Option Int :=
  match fate with
  | .exits c => some c
  | .deadline => none

/-- The exit-code resolution code ?? 137 from route.ts line 128: a null
close code is replaced by the sentinel 137. -/
def resolveExitCode (c : Option Int) : Int := c.getD 137

/-- Accumulation of stream chunks, mirroring stdout += d.toString() in
route.ts lines 122-123: plain concatenation of every received chunk. -/
def accumulate (chunks : List String) : String := chunks.foldl (fun a b => a ++ b) ""

/-- Events on the stdin pipe of the spawned process. -/
inductive StdinEvent where
  | write (s : String)
  | close
deriving DecidableEq

/-- The stdin interaction of route.ts lines 118-119:
if (stdin) proc.stdin.write(stdin); proc.stdin.end().
A missing or empty stdin is falsy, so nothing is written; end() is
unconditional. -/
def stdinEventsOf (stdin : Option String) : List StdinEvent :=
  (match stdin with
   | some s => if s = "" then [] else [StdinEvent.write s]
   | none => []) ++ [StdinEvent.close]

/-- Total text written over a list of stdin events. -/
def writtenOf (events : List StdinEvent) : String :=
  events.foldl (fun acc e => match e with | .write s => acc ++ s | .close => acc) ""

/-- The 200-response body of route.ts lines 134-139. -/
structure ExecResult where
  exitCode : Int
  stdout : String
  stderr : String
  timedOut : Bool
deriving DecidableEq

/-- The HTTP response of the POST handler: a 200 result, a 4xx validation
rejection with its message, or the 500 catch-all of route.ts line 141. -/
inductive RouteResponse where
  | ok (r : ExecResult)
  | clientError (status : Nat) (msg : String)
  | serverError (msg : String)
deriving DecidableEq

/-- Environment for one request: the temporary directory name produced by
mkdtemp, whether fs.writeFile succeeds, whether spawn succeeds without
throwing, how the spawned process ends, and the stdout and stderr chunks it
emits. -/
structure RunEnv where
  dir : String
  writeOk : Bool
  spawnOk : Bool
  fate : RunFate
  outChunks : List String
  errChunks : List String
deriving DecidableEq

/-- Observable outcome of one POST call: the response plus the side effects
the claims are about. wsCreated records that mkdtemp ran; wsRemoved records
that fs.rm was invoked on the workspace before the response was produced;
spawned records that the docker process was started; forceKilled records
that the deadline timer fired proc.kill("SIGKILL"); spawnedArgs is the
argument list passed to spawn; fileWritten is the (filename, content) pair
passed to fs.writeFile; stdinEvents is the stdin pipe interaction. -/
structure RunTrace where
  resp : RouteResponse
  wsCreated : Bool
  wsRemoved : Bool
  spawned : Bool
  forceKilled : Bool
  spawnedArgs : Option (List String)
  fileWritten : Option (String × String)
  stdinEvents : List StdinEvent
deriving DecidableEq

/-- A validation rejection: json(error, status) before any resource is
allocated (route.ts lines 89-94). -/
def reject (status : Nat) (msg : String) : RunTrace :=
  { resp := .clientError status msg
    wsCreated := false
    wsRemoved := false
    spawned := false
    forceKilled := false
    spawnedArgs := none
    fileWritten := none
    stdinEvents := [] }

/-- The accepted-request path of the POST handler, route.ts lines 97-139,
with the surrounding try/catch of lines 86 and 140-142. mkdtemp has
allocated the workspace. If fs.writeFile throws, the catch block returns a
500 response; no fs.rm runs on that path. If spawn throws, likewise. On
the path that reaches the close event, the chunks are accumulated, the
exit code is resolved with code ?? 137, fs.rm removes the workspace, and
the 200 body is produced with timedOut = (exitCode === 137 && !stdout &&
!stderr). -/
def runAccepted (language : Lang) (code : String) (stdin : Option String)
    (env : RunEnv) : RunTrace :=
  if env.writeOk then
    if env.spawnOk then
      let args := dockerArgs language env.dir (fileBaseFor language)
      let stdout := accumulate env.outChunks
      let stderr := accumulate env.errChunks
      let exitCode := resolveExitCode (closeCode env.fate)
      { resp := .ok
          { exitCode := exitCode
            stdout := stdout
            stderr := stderr
            timedOut := exitCode == 137 && stdout == "" && stderr == "" }
        wsCreated := true
        wsRemoved := true
        spawned := true
        forceKilled := decide (env.fate = RunFate.deadline)
        spawnedArgs := some args
        fileWritten := some (filenameFor language, code)
        stdinEvents := stdinEventsOf stdin }
    else
      { resp := .serverError "runner error"
        wsCreated := true
        wsRemoved := false
        spawned := false
        forceKilled := false
        spawnedArgs := none
        fileWritten := some (filenameFor language, code)
        stdinEvents := [] }
  else
    { resp := .serverError "runner error"
      wsCreated := true
      wsRemoved := false
      spawned := false
      forceKilled := false
      spawnedArgs := none
      fileWritten := none
      stdinEvents := [] }

/-- The POST handler of route.ts lines 85-143. Validation mirrors lines
89-94: a missing or unrecognized language rejects with 400, then a missing,
empty (JS falsy) or oversized code rejects with 413; only then is the
workspace allocated and the run performed. -/
def POST (req : RunBody) (env : RunEnv) : RunTrace :=
  match req.language.bind Lang.ofString? with
  | none => reject 400 "Unsupported or missing language"
  | some language =>
    match req.code with
    | none => reject 413 "Missing code or too large"
    | some code =>
      if code = "" ∨ SIZE_LIMIT < code.length then
        reject 413 "Missing code or too large"
      else
        runAccepted language code req.stdin env

/-- The language validation of route.ts line 89, as a Boolean predicate on
the optional language field. -/
def validLanguage (l : Option String) : Bool := (l.bind Lang.ofString?).isSome

/-- The code validation of route.ts line 92, as a Boolean predicate: true
when the code field is present, non-empty and within the size bound. -/
def codeAccepted (c : Option String) : Bool :=
  match c with
  | none => false
  | some s => !(decide (s = "" ∨ SIZE_LIMIT < s.length))

/-- Membership in a list as two adjacent elements, used to state that a
docker flag and its value occur together in an argument list. -/
def adjacentIn (l : List String) (a b : String) : Prop :=
  ∃ u v, l = u ++ a :: b :: v

/-- A single output chunk of 300001 characters, one more than SIZE_LIMIT. -/
def bigChunk : String := { data := List.replicate 300001 'a' }

/-- A source text of exactly 300000 characters, the largest accepted size. -/
def okSizeCode : String := { data := List.replicate 300000 'a' }

/-- A source text of 300001 characters, one over the size bound. -/
def overSizeCode : String := { data := List.replicate 300001 'b' }

theorem adjacentIn_append_right {l : List String} {a b : String} (r : List String)
    (h : adjacentIn l a b) : adjacentIn (l ++ r) a b := by
  obtain ⟨u, v, rfl⟩ := h
  exact ⟨u, v ++ r, by simp⟩

theorem commonArgs_flags (dir : String) :
    adjacentIn (commonArgs dir) "--network" "none" ∧
    adjacentIn (commonArgs dir) "--cpus" LIMIT_CPUS ∧
    adjacentIn (commonArgs dir) "--memory" LIMIT_MEMORY ∧
    adjacentIn (commonArgs dir) "--pids-limit" "64" ∧
    "--read-only" ∈ commonArgs dir ∧
    adjacentIn (commonArgs dir) "--tmpfs" "/tmp:rw,nosuid,nodev,noexec,size=64m" ∧
    adjacentIn (commonArgs dir) "--cap-drop" "ALL" ∧
    adjacentIn (commonArgs dir) "--security-opt" "no-new-privileges" ∧
    adjacentIn (commonArgs dir) "-v" (dir ++ ":/workspace:ro") ∧
    adjacentIn (commonArgs dir) "--user" "1000:1000" := by
  refine ⟨⟨["run", "--rm"], _, rfl⟩,
    ⟨["run", "--rm", "--network", "none"], _, rfl⟩,
    ⟨["run", "--rm", "--network", "none", "--cpus", LIMIT_CPUS], _, rfl⟩,
    ⟨["run", "--rm", "--network", "none", "--cpus", LIMIT_CPUS, "--memory",
      LIMIT_MEMORY], _, rfl⟩,
    by simp [commonArgs],
    ⟨["run", "--rm", "--network", "none", "--cpus", LIMIT_CPUS, "--memory",
      LIMIT_MEMORY, "--pids-limit", "64", "--read-only"], _, rfl⟩,
    ⟨["run", "--rm", "--network", "none", "--cpus", LIMIT_CPUS, "--memory",
      LIMIT_MEMORY, "--pids-limit", "64", "--read-only", "--tmpfs",
      "/tmp:rw,nosuid,nodev,noexec,size=64m"], _, rfl⟩,
    ⟨["run", "--rm", "--network", "none", "--cpus", LIMIT_CPUS, "--memory",
      LIMIT_MEMORY, "--pids-limit", "64", "--read-only", "--tmpfs",
      "/tmp:rw,nosuid,nodev,noexec,size=64m", "--cap-drop", "ALL"], _, rfl⟩,
    ⟨["run", "--rm", "--network", "none", "--cpus", LIMIT_CPUS, "--memory",
      LIMIT_MEMORY, "--pids-limit", "64", "--read-only", "--tmpfs",
      "/tmp:rw,nosuid,nodev,noexec,size=64m", "--cap-drop", "ALL",
      "--security-opt", "no-new-privileges"], _, rfl⟩,
    ⟨["run", "--rm", "--network", "none", "--cpus", LIMIT_CPUS, "--memory",
      LIMIT_MEMORY, "--pids-limit", "64", "--read-only", "--tmpfs",
      "/tmp:rw,nosuid,nodev,noexec,size=64m", "--cap-drop", "ALL",
      "--security-opt", "no-new-privileges", "-v", dir ++ ":/workspace:ro",
      "-w", "/workspace"], [], rfl⟩⟩

theorem dockerArgs_extends_commonArgs (language : Lang) (dir fileBase : String) :
    ∃ rest, dockerArgs language dir fileBase = commonArgs dir ++ rest := by
  cases language <;> exact ⟨_, rfl⟩

/-- C6: for every supported language, the docker argument list carries all
mandated isolation constraints: network disabled, fixed CPU and memory
limits, a pids limit, a read-only root filesystem with a nosuid nodev
noexec tmpfs, all capabilities dropped with no-new-privileges, an
unprivileged non-root user, and the workspace mounted read-only. -/
theorem isolation_constraints_present (language : Lang) (dir fileBase : String) :
    adjacentIn (dockerArgs language dir fileBase) "--network" "none" ∧
    adjacentIn (dockerArgs language dir fileBase) "--cpus" LIMIT_CPUS ∧
    adjacentIn (dockerArgs language dir fileBase) "--memory" LIMIT_MEMORY ∧
    adjacentIn (dockerArgs language dir fileBase) "--pids-limit" "64" ∧
    "--read-only" ∈ dockerArgs language dir fileBase ∧
    adjacentIn (dockerArgs language dir fileBase) "--tmpfs"
      "/tmp:rw,nosuid,nodev,noexec,size=64m" ∧
    adjacentIn (dockerArgs language dir fileBase) "--cap-drop" "ALL" ∧
    adjacentIn (dockerArgs language dir fileBase) "--security-opt"
      "no-new-privileges" ∧
    adjacentIn (dockerArgs language dir fileBase) "-v" (dir ++ ":/workspace:ro") ∧
    adjacentIn (dockerArgs language dir fileBase) "--user" "1000:1000" := by
  obtain ⟨rest, hrest⟩ := dockerArgs_extends_commonArgs language dir fileBase
  obtain ⟨h1, h2, h3, h4, h5, h6, h7, h8, h9, h10⟩ := commonArgs_flags dir
  rw [hrest]
  exact ⟨adjacentIn_append_right rest h1, adjacentIn_append_right rest h2,
    adjacentIn_append_right rest h3, adjacentIn_append_right rest h4,
    List.mem_append_left rest h5, adjacentIn_append_right rest h6,
    adjacentIn_append_right rest h7, adjacentIn_append_right rest h8,
    adjacentIn_append_right rest h9, adjacentIn_append_right rest h10⟩

theorem POST_accepted (req : RunBody) (env : RunEnv) (lang : Lang) (code : String)
    (hl : req.language.bind Lang.ofString? = some lang)
    (hc : req.code = some code)
    (hne : ¬(code = "" ∨ SIZE_LIMIT < code.length)) :
    POST req env = runAccepted lang code req.stdin env := by
  unfold POST
  rw [hl, hc]
  simp [hne]

theorem runAccepted_ok (language : Lang) (code : String) (stdin : Option String)
    (env : RunEnv) (hw : env.writeOk = true) (hs : env.spawnOk = true) :
    runAccepted language code stdin env =
      { resp := RouteResponse.ok
          { exitCode := resolveExitCode (closeCode env.fate)
            stdout := accumulate env.outChunks
            stderr := accumulate env.errChunks
            timedOut := resolveExitCode (closeCode env.fate) == 137 &&
              accumulate env.outChunks == "" && accumulate env.errChunks == "" }
        wsCreated := true
        wsRemoved := true
        spawned := true
        forceKilled := decide (env.fate = RunFate.deadline)
        spawnedArgs := some (dockerArgs language env.dir (fileBaseFor language))
        fileWritten := some (filenameFor language, code)
        stdinEvents := stdinEventsOf stdin } := by
  simp [runAccepted, hw, hs]

theorem POST_ok_inv (req : RunBody) (env : RunEnv) (r : ExecResult)
    (h : (POST req env).resp = RouteResponse.ok r) :
    ∃ lang code,
      req.language.bind Lang.ofString? = some lang ∧
      req.code = some code ∧
      ¬(code = "" ∨ SIZE_LIMIT < code.length) ∧
      env.writeOk = true ∧ env.spawnOk = true ∧
      POST req env =
        { resp := RouteResponse.ok
            { exitCode := resolveExitCode (closeCode env.fate)
              stdout := accumulate env.outChunks
              stderr := accumulate env.errChunks
              timedOut := resolveExitCode (closeCode env.fate) == 137 &&
                accumulate env.outChunks == "" && accumulate env.errChunks == "" }
          wsCreated := true
          wsRemoved := true
          spawned := true
          forceKilled := decide (env.fate = RunFate.deadline)
          spawnedArgs := some (dockerArgs lang env.dir (fileBaseFor lang))
          fileWritten := some (filenameFor lang, code)
          stdinEvents := stdinEventsOf req.stdin } := by
  unfold POST at h
  split at h
  next => simp [reject] at h
  next lang hL =>
    split at h
    next => simp [reject] at h
    next code hC =>
      split at h
      next hcond => simp [reject] at h
      next hcond =>
        refine ⟨lang, code, hL, hC, hcond, ?_⟩
        unfold runAccepted at h
        split at h
        next hw =>
          split at h
          next hs =>
            refine ⟨hw, hs, ?_⟩
            rw [POST_accepted req env lang code hL hC hcond,
              runAccepted_ok lang code req.stdin env hw hs]
          next hs => simp at h
        next hw => simp at h

theorem accumulate_length (chunks : List String) :
    (accumulate chunks).length = (chunks.map String.length).sum := by
  suffices h : ∀ s : String,
      (chunks.foldl (fun a b => a ++ b) s).length =
        s.length + (chunks.map String.length).sum by
    simpa [accumulate] using h ""
  induction chunks with
  | nil => simp
  | cons c cs ih =>
    intro s
    simp only [List.foldl_cons, ih, List.map_cons, List.sum_cons,
      String.length_append]
    omega

/-- C1 (amended): every request that passes validation creates the
workspace, and the workspace is removed exactly when both the source-file
write and the spawn succeed; when either throws, the handler answers from
the catch block without removing the workspace, so cleanup is
success-path-only rather than guaranteed on every exit path. -/
theorem workspace_cleanup_paths (req : RunBody) (env : RunEnv) (lang : Lang)
    (code : String)
    (hl : req.language.bind Lang.ofString? = some lang)
    (hc : req.code = some code)
    (hne : ¬(code = "" ∨ SIZE_LIMIT < code.length)) :
    (POST req env).wsCreated = true ∧
    (POST req env).wsRemoved = (env.writeOk && env.spawnOk) := by
  rw [POST_accepted req env lang code hl hc hne]
  unfold runAccepted
  cases hw : env.writeOk <;> cases hs : env.spawnOk <;> simp [hw, hs]

theorem workspace_cleanup_paths_witness :
    (POST { language := some "python", code := some "print(1)", stdin := none }
        { dir := "/tmp/run-a", writeOk := false, spawnOk := true,
          fate := RunFate.exits 0, outChunks := [], errChunks := [] }).wsCreated = true ∧
    (POST { language := some "python", code := some "print(1)", stdin := none }
        { dir := "/tmp/run-a", writeOk := false, spawnOk := true,
          fate := RunFate.exits 0, outChunks := [], errChunks := [] }).wsRemoved =
      (false && true) :=
  workspace_cleanup_paths _ _ Lang.python "print(1)" rfl rfl (by decide)

/-- C1 counterexample: an accepted request whose source-file write throws is
answered with the 500 catch-all while the allocated workspace is never
removed, refuting removal on every exit path. -/
theorem workspace_cleanup_counterexample :
    (POST { language := some "python", code := some "print(1)", stdin := none }
        { dir := "/tmp/run-b", writeOk := false, spawnOk := true,
          fate := RunFate.exits 0, outChunks := [], errChunks := [] }).wsCreated = true ∧
    (POST { language := some "python", code := some "print(1)", stdin := none }
        { dir := "/tmp/run-b", writeOk := false, spawnOk := true,
          fate := RunFate.exits 0, outChunks := [], errChunks := [] }).wsRemoved = false ∧
    (POST { language := some "python", code := some "print(1)", stdin := none }
        { dir := "/tmp/run-b", writeOk := false, spawnOk := true,
          fate := RunFate.exits 0, outChunks := [], errChunks := [] }).resp =
      RouteResponse.serverError "runner error" := by
  decide

/-- C2 (amended): on a 200 result, timedOut is true exactly when the
reported exitCode is 137 and both captured streams are empty; a run killed
by the deadline timer always reports exitCode 137, so a timer-killed run
with non-empty output has timedOut = false, but the flag is derived from
the exit code rather than from the kill itself. -/
theorem timedOut_rule (req : RunBody) (env : RunEnv) (r : ExecResult)
    (h : (POST req env).resp = RouteResponse.ok r) :
    (r.timedOut = true ↔ r.exitCode = 137 ∧ r.stdout = "" ∧ r.stderr = "") ∧
    (env.fate = RunFate.deadline → r.exitCode = 137) := by
  obtain ⟨lang, code, hL, hC, hcond, hw, hs, htrace⟩ := POST_ok_inv req env r h
  rw [htrace] at h
  simp only [RouteResponse.ok.injEq] at h
  subst h
  constructor
  · simp [Bool.and_eq_true, beq_iff_eq, and_assoc]
  · intro hd
    simp [hd, closeCode, resolveExitCode]

theorem timedOut_rule_witness :
    ((false = true ↔ (137 : Int) = 137 ∧ "partial" = "" ∧ "" = "") ∧
      (RunFate.deadline = RunFate.deadline → (137 : Int) = 137)) :=
  timedOut_rule { language := some "python", code := some "x", stdin := none }
    { dir := "/d", writeOk := true, spawnOk := true, fate := RunFate.deadline,
      outChunks := ["partial"], errChunks := [] }
    { exitCode := 137, stdout := "partial", stderr := "", timedOut := false }
    (by decide)

/-- C2 counterexample: a run whose process exits on its own with status 137
and produces no output is reported with timedOut = true even though it was
not killed by the deadline timer, refuting the claim that a run not killed
by the timer has timedOut = false regardless of its exit code. -/
theorem timedOut_claim_counterexample :
    RunFate.exits 137 ≠ RunFate.deadline ∧
    (POST { language := some "python", code := some "x", stdin := none }
        { dir := "/d", writeOk := true, spawnOk := true,
          fate := RunFate.exits 137, outChunks := [], errChunks := [] }).resp =
      RouteResponse.ok { exitCode := 137, stdout := "", stderr := "", timedOut := true } := by
  decide

/-- C3 (amended): when the deadline elapses before the process exits, the
process is forcibly killed and the reported exitCode is the sentinel 137;
however the sentinel is not distinguishable from a real program exit code,
because a run that exits on its own with status 137 reports the same
exitCode. -/
theorem deadline_exit_sentinel (req : RunBody) (env : RunEnv) (r : ExecResult)
    (hd : env.fate = RunFate.deadline)
    (h : (POST req env).resp = RouteResponse.ok r) :
    (POST req env).forceKilled = true ∧ r.exitCode = 137 := by
  obtain ⟨lang, code, hL, hC, hcond, hw, hs, htrace⟩ := POST_ok_inv req env r h
  rw [htrace] at h
  simp only [RouteResponse.ok.injEq] at h
  subst h
  rw [htrace]
  simp [hd, closeCode, resolveExitCode]

theorem deadline_exit_sentinel_witness :
    (POST { language := some "node", code := some "while(true);", stdin := none }
        { dir := "/d", writeOk := true, spawnOk := true, fate := RunFate.deadline,
          outChunks := [], errChunks := [] }).forceKilled = true ∧
    ExecResult.exitCode
      { exitCode := 137, stdout := "", stderr := "", timedOut := true } = 137 :=
  deadline_exit_sentinel
    { language := some "node", code := some "while(true);", stdin := none }
    { dir := "/d", writeOk := true, spawnOk := true, fate := RunFate.deadline,
      outChunks := [], errChunks := [] }
    { exitCode := 137, stdout := "", stderr := "", timedOut := true }
    rfl (by decide)

/-- C3 counterexample: a run whose process exits on its own with status 137
is reported with exitCode 137, so the sentinel cannot be distinguished from
a real program exit code. -/
theorem exit137_ambiguity_counterexample :
    RunFate.exits 137 ≠ RunFate.deadline ∧
    (POST { language := some "python", code := some "x", stdin := none }
        { dir := "/d", writeOk := true, spawnOk := true,
          fate := RunFate.exits 137, outChunks := ["boom"], errChunks := [] }).resp =
      RouteResponse.ok { exitCode := 137, stdout := "boom", stderr := "", timedOut := false } := by
  decide

/-- C4 (amended): a request with a missing or unrecognized language is
rejected with 400 before any workspace is created or process spawned; a
request with a recognized language whose code is missing, empty or over
the size bound is rejected with 413, likewise before any resource is
allocated. When both fields are invalid the language check wins, so the
response is 400, not 413. -/
theorem validation_rejections (req : RunBody) (env : RunEnv) :
    (validLanguage req.language = false →
      (POST req env).resp = RouteResponse.clientError 400 "Unsupported or missing language" ∧
      (POST req env).wsCreated = false ∧ (POST req env).spawned = false) ∧
    (validLanguage req.language = true → codeAccepted req.code = false →
      (POST req env).resp = RouteResponse.clientError 413 "Missing code or too large" ∧
      (POST req env).wsCreated = false ∧ (POST req env).spawned = false) := by
  constructor
  · intro hv
    cases hE : req.language.bind Lang.ofString? with
    | none => simp [POST, hE, reject]
    | some lang => rw [validLanguage, hE] at hv; simp at hv
  · intro hv hc
    cases hE : req.language.bind Lang.ofString? with
    | none => rw [validLanguage, hE] at hv; simp at hv
    | some lang =>
      cases hC : req.code with
      | none => simp [POST, hE, hC, reject]
      | some code =>
        rw [hC] at hc
        simp only [codeAccepted, Bool.not_eq_false', decide_eq_true_eq] at hc
        simp [POST, hE, hC, hc, reject]

theorem validation_rejections_witness :
    (POST { language := some "brainfuck", code := some "x", stdin := none }
        { dir := "/d", writeOk := true, spawnOk := true, fate := RunFate.exits 0,
          outChunks := [], errChunks := [] }).resp =
      RouteResponse.clientError 400 "Unsupported or missing language" ∧
    (POST { language := some "python", code := none, stdin := none }
        { dir := "/d", writeOk := true, spawnOk := true, fate := RunFate.exits 0,
          outChunks := [], errChunks := [] }).resp =
      RouteResponse.clientError 413 "Missing code or too large" := by
  constructor
  · exact ((validation_rejections
      { language := some "brainfuck", code := some "x", stdin := none }
      { dir := "/d", writeOk := true, spawnOk := true, fate := RunFate.exits 0,
        outChunks := [], errChunks := [] }).1 (by decide)).1
  · exact ((validation_rejections
      { language := some "python", code := none, stdin := none }
      { dir := "/d", writeOk := true, spawnOk := true, fate := RunFate.exits 0,
        outChunks := [], errChunks := [] }).2 (by decide) (by decide)).1

/-- C4 counterexample: a request whose code field is absent but whose
language is also unrecognized is answered 400, not the claimed 413. -/
theorem missing_code_bad_language_counterexample :
    (POST { language := some "brainfuck", code := none, stdin := none }
        { dir := "/d", writeOk := true, spawnOk := true, fate := RunFate.exits 0,
          outChunks := [], errChunks := [] }).resp =
      RouteResponse.clientError 400 "Unsupported or missing language" ∧
    (POST { language := some "brainfuck", code := none, stdin := none }
        { dir := "/d", writeOk := true, spawnOk := true, fate := RunFate.exits 0,
          outChunks := [], errChunks := [] }).resp ≠
      RouteResponse.clientError 413 "Missing code or too large" := by
  decide

/-- C5 (amended): the handler applies no ceiling to captured output: on a
200 result, stdout and stderr are the plain concatenations of all received
chunks, so each length equals the total length of the chunks on that
stream and is not bounded by SIZE_LIMIT. -/
theorem output_accumulation_total (req : RunBody) (env : RunEnv) (r : ExecResult)
    (h : (POST req env).resp = RouteResponse.ok r) :
    r.stdout = accumulate env.outChunks ∧
    r.stderr = accumulate env.errChunks ∧
    r.stdout.length = (env.outChunks.map String.length).sum ∧
    r.stderr.length = (env.errChunks.map String.length).sum := by
  obtain ⟨lang, code, hL, hC, hcond, hw, hs, htrace⟩ := POST_ok_inv req env r h
  rw [htrace] at h
  simp only [RouteResponse.ok.injEq] at h
  subst h
  exact ⟨rfl, rfl, accumulate_length env.outChunks, accumulate_length env.errChunks⟩

theorem output_accumulation_total_witness :
    ExecResult.stdout
        { exitCode := 0, stdout := "ab", stderr := "c", timedOut := false } =
      accumulate ["ab"] ∧
    ExecResult.stderr
        { exitCode := 0, stdout := "ab", stderr := "c", timedOut := false } =
      accumulate ["c"] ∧
    (ExecResult.stdout
        { exitCode := 0, stdout := "ab", stderr := "c", timedOut := false }).length =
      (["ab"].map String.length).sum ∧
    (ExecResult.stderr
        { exitCode := 0, stdout := "ab", stderr := "c", timedOut := false }).length =
      (["c"].map String.length).sum :=
  output_accumulation_total { language := some "python", code := some "x", stdin := none }
    { dir := "/d", writeOk := true, spawnOk := true, fate := RunFate.exits 0,
      outChunks := ["ab"], errChunks := ["c"] }
    { exitCode := 0, stdout := "ab", stderr := "c", timedOut := false }
    (by decide)

/-- C5 counterexample: a run whose process emits a single chunk of 300001
characters yields a 200 result whose stdout is that whole chunk, with
length strictly greater than SIZE_LIMIT, refuting the claimed output
ceiling. -/
theorem output_bound_counterexample :
    (POST { language := some "python", code := some "x", stdin := none }
        { dir := "/d", writeOk := true, spawnOk := true, fate := RunFate.exits 0,
          outChunks := [bigChunk], errChunks := [] }).resp =
      RouteResponse.ok { exitCode := 0, stdout := bigChunk, stderr := "", timedOut := false } ∧
    SIZE_LIMIT < bigChunk.length := by
  constructor
  · rfl
  · show SIZE_LIMIT < (List.replicate 300001 'a').length
    rw [List.length_replicate]
    decide

/-- C7: the spawn argument list is independent of the submitted code and
stdin: two requests with the same language, run over the same workspace
dir, are spawned with identical argument lists; the list is exactly
dockerArgs applied to the language-derived fileBase and the workspace dir,
and the submitted source text flows only into the file write. -/
theorem spawn_args_noninterference (r1 r2 : RunBody) (e1 e2 : RunEnv)
    (x1 x2 : ExecResult)
    (hlang : r1.language = r2.language) (hdir : e1.dir = e2.dir)
    (h1 : (POST r1 e1).resp = RouteResponse.ok x1)
    (h2 : (POST r2 e2).resp = RouteResponse.ok x2) :
    (POST r1 e1).spawnedArgs = (POST r2 e2).spawnedArgs ∧
    (∃ lang code, r1.language.bind Lang.ofString? = some lang ∧
      r1.code = some code ∧
      (POST r1 e1).spawnedArgs = some (dockerArgs lang e1.dir (fileBaseFor lang)) ∧
      (POST r1 e1).fileWritten = some (filenameFor lang, code)) := by
  obtain ⟨l1, c1, hL1, hC1, hcond1, hw1, hs1, ht1⟩ := POST_ok_inv r1 e1 x1 h1
  obtain ⟨l2, c2, hL2, hC2, hcond2, hw2, hs2, ht2⟩ := POST_ok_inv r2 e2 x2 h2
  have hL1r2 : r2.language.bind Lang.ofString? = some l1 := by rw [← hlang]; exact hL1
  rw [hL1r2] at hL2
  have hll : l1 = l2 := Option.some_inj.mp hL2
  constructor
  · rw [ht1, ht2]
    simp only [hll, hdir]
  · exact ⟨l1, c1, hL1, hC1, by rw [ht1], by rw [ht1]⟩

theorem spawn_args_noninterference_witness :
    (POST { language := some "python", code := some "print(1)", stdin := none }
        { dir := "/w", writeOk := true, spawnOk := true, fate := RunFate.exits 0,
          outChunks := [], errChunks := [] }).spawnedArgs =
      (POST { language := some "python", code := some "print(2)", stdin := some "zzz" }
        { dir := "/w", writeOk := true, spawnOk := true, fate := RunFate.exits 1,
          outChunks := ["o"], errChunks := [] }).spawnedArgs ∧
    (∃ lang code, (some "python").bind Lang.ofString? = some lang ∧
      (some "print(1)" : Option String) = some code ∧
      (POST { language := some "python", code := some "print(1)", stdin := none }
          { dir := "/w", writeOk := true, spawnOk := true, fate := RunFate.exits 0,
            outChunks := [], errChunks := [] }).spawnedArgs =
        some (dockerArgs lang "/w" (fileBaseFor lang)) ∧
      (POST { language := some "python", code := some "print(1)", stdin := none }
          { dir := "/w", writeOk := true, spawnOk := true, fate := RunFate.exits 0,
            outChunks := [], errChunks := [] }).fileWritten =
        some (filenameFor lang, code)) :=
  spawn_args_noninterference
    { language := some "python", code := some "print(1)", stdin := none }
    { language := some "python", code := some "print(2)", stdin := some "zzz" }
    { dir := "/w", writeOk := true, spawnOk := true, fate := RunFate.exits 0,
      outChunks := [], errChunks := [] }
    { dir := "/w", writeOk := true, spawnOk := true, fate := RunFate.exits 1,
      outChunks := ["o"], errChunks := [] }
    { exitCode := 0, stdout := "", stderr := "", timedOut := false }
    { exitCode := 1, stdout := "o", stderr := "", timedOut := false }
    rfl rfl (by decide) (by decide)

/-- C8: on every request that reaches the spawn, the stdin pipe interaction
writes the optional stdin text (nothing when the field is absent or empty)
and then closes the stream: the final pipe event is always close, and the
total text written equals the stdin field with empty as default. -/
theorem stdin_written_then_closed (req : RunBody) (env : RunEnv) (r : ExecResult)
    (h : (POST req env).resp = RouteResponse.ok r) :
    (POST req env).stdinEvents.getLast? = some StdinEvent.close ∧
    writtenOf (POST req env).stdinEvents = req.stdin.getD "" := by
  obtain ⟨lang, code, hL, hC, hcond, hw, hs, ht⟩ := POST_ok_inv req env r h
  rw [ht]
  constructor
  · simp [stdinEventsOf, List.getLast?_concat]
  · cases hst : req.stdin with
    | none => rfl
    | some s =>
      by_cases hse : s = ""
      · subst hse
        rfl
      · have h1 : stdinEventsOf (some s) = [StdinEvent.write s, StdinEvent.close] := by
          simp [stdinEventsOf, hse]
        rw [h1]
        rfl

theorem stdin_written_then_closed_witness :
    (POST { language := some "python", code := some "input()", stdin := some "hello\n" }
        { dir := "/d", writeOk := true, spawnOk := true, fate := RunFate.exits 0,
          outChunks := ["hello"], errChunks := [] }).stdinEvents.getLast? =
      some StdinEvent.close ∧
    writtenOf (POST { language := some "python", code := some "input()", stdin := some "hello\n" }
        { dir := "/d", writeOk := true, spawnOk := true, fate := RunFate.exits 0,
          outChunks := ["hello"], errChunks := [] }).stdinEvents =
      (some "hello\n").getD "" :=
  stdin_written_then_closed
    { language := some "python", code := some "input()", stdin := some "hello\n" }
    { dir := "/d", writeOk := true, spawnOk := true, fate := RunFate.exits 0,
      outChunks := ["hello"], errChunks := [] }
    { exitCode := 0, stdout := "hello", stderr := "", timedOut := false }
    (by decide)

/-- C9: the language check runs before the size check: a request failing
both validations is answered with 400 for the unsupported language, not
with 413. -/
theorem language_check_first (req : RunBody) (env : RunEnv)
    (hv : validLanguage req.language = false)
    (_hc : codeAccepted req.code = false) :
    (POST req env).resp = RouteResponse.clientError 400 "Unsupported or missing language" := by
  cases hE : req.language.bind Lang.ofString? with
  | none => simp [POST, hE, reject]
  | some lang => rw [validLanguage, hE] at hv; simp at hv

theorem language_check_first_witness :
    (POST { language := some "pascal", code := none, stdin := none }
        { dir := "/d", writeOk := true, spawnOk := true, fate := RunFate.exits 0,
          outChunks := [], errChunks := [] }).resp =
      RouteResponse.clientError 400 "Unsupported or missing language" :=
  language_check_first
    { language := some "pascal", code := none, stdin := none }
    { dir := "/d", writeOk := true, spawnOk := true, fate := RunFate.exits 0,
      outChunks := [], errChunks := [] }
    (by decide) (by decide)

/-- C10: the size bound is exactly 300000 and inclusive: with a recognized
language, a code string of length exactly 300000 passes validation and the
workspace is allocated, a string of length 300001 is rejected with 413,
and a present-but-empty code string is rejected with 413 like missing
code. -/
theorem size_bound_exact (env : RunEnv) (l : Option String) (stdin : Option String)
    (hv : validLanguage l = true)
    (s t : String) (hs : s.length = 300000) (ht : t.length = 300001) :
    (POST { language := l, code := some s, stdin := stdin } env).wsCreated = true ∧
    (POST { language := l, code := some t, stdin := stdin } env).resp =
      RouteResponse.clientError 413 "Missing code or too large" ∧
    (POST { language := l, code := some "", stdin := stdin } env).resp =
      RouteResponse.clientError 413 "Missing code or too large" := by
  cases hE : l.bind Lang.ofString? with
  | none => rw [validLanguage, hE] at hv; simp at hv
  | some lang =>
    refine ⟨?_, ?_, ?_⟩
    · have hcond : ¬(s = "" ∨ SIZE_LIMIT < s.length) := by
        rintro (rfl | hgt)
        · exact absurd hs (by decide)
        · rw [hs] at hgt
          exact absurd hgt (by decide)
      rw [POST_accepted _ env lang s hE rfl hcond]
      unfold runAccepted
      cases hw : env.writeOk <;> cases hsp : env.spawnOk <;> simp [hw, hsp]
    · have hcond : t = "" ∨ SIZE_LIMIT < t.length := Or.inr (by rw [ht]; decide)
      simp [POST, hE, hcond, reject]
    · simp [POST, hE, reject]

theorem size_bound_exact_witness :
    (POST { language := some "python", code := some okSizeCode, stdin := none }
        { dir := "/d", writeOk := true, spawnOk := true, fate := RunFate.exits 0,
          outChunks := [], errChunks := [] }).wsCreated = true ∧
    (POST { language := some "python", code := some overSizeCode, stdin := none }
        { dir := "/d", writeOk := true, spawnOk := true, fate := RunFate.exits 0,
          outChunks := [], errChunks := [] }).resp =
      RouteResponse.clientError 413 "Missing code or too large" ∧
    (POST { language := some "python", code := some "", stdin := none }
        { dir := "/d", writeOk := true, spawnOk := true, fate := RunFate.exits 0,
          outChunks := [], errChunks := [] }).resp =
      RouteResponse.clientError 413 "Missing code or too large" :=
  size_bound_exact
    { dir := "/d", writeOk := true, spawnOk := true, fate := RunFate.exits 0,
      outChunks := [], errChunks := [] }
    (some "python") none (by decide) okSizeCode overSizeCode
    (by show (List.replicate 300000 'a').length = 300000; rw [List.length_replicate])
    (by show (List.replicate 300001 'b').length = 300001; rw [List.length_replicate])
